import Mathlib

/-!
Shallow embedding of the creator-qualification core of the repository:
`server/lib/scoring.js` (scoring functions, niche classifier, brand mapper)
and the `runQualification` pipeline of the server entry file.
JavaScript numbers are modelled as rationals (`ℚ`) for raw signals and as
integers (`ℤ`) for the discrete scores; every constant threshold is the
exact rational of the source literal.
-/

namespace Influence

/-- JS `Math.round`: round half toward positive infinity, `⌊x + 1/2⌋`. -/
def jsRound (x : ℚ) : ℤ := ⌊x + 1/2⌋

/-- `clamp(n, min, max)` from scoring.js: `Math.max(min, Math.min(max, n))`. -/
def clamp (n lo hi : ℤ) : ℤ := max lo (min hi n)

/-- `computeErScore` (scoring.js lines 5–10). -/
def computeErScore (er : ℚ) : ℤ :=
  if er ≥ 6/100 then 100
  else if er ≥ 3/100 then 70
  else if er ≥ 15/1000 then 45
  else 20

/-- `computeConsistencyScore` (scoring.js lines 12–17). -/
def computeConsistencyScore (contentsPerWeek : ℚ) : ℤ :=
  if contentsPerWeek ≥ 4 then 100
  else if contentsPerWeek ≥ 2 then 70
  else if contentsPerWeek ≥ 1 then 40
  else 20

/-- `computeNicheScore` (scoring.js lines 19–24). -/
def computeNicheScore (confidence : ℚ) : ℤ :=
  if confidence ≥ 75/100 then 100
  else if confidence ≥ 6/10 then 75
  else if confidence ≥ 45/100 then 55
  else 35

/-- `computeReachScore` (scoring.js lines 26–32); `none` models the JS `null`
returned when reach data is unavailable. -/
def computeReachScore (reachAvailable : Bool) (ratio : ℚ) : Option ℤ :=
  if !reachAvailable then none
  else if ratio ≥ 12/10 then some 100
  else if ratio ≥ 8/10 then some 75
  else if ratio ≥ 5/10 then some 55
  else some 35

/-- `computeFraudPenalty` (scoring.js lines 34–40): three additive `+10`
rules followed by `clamp(p, 0, 30)`. -/
def computeFraudPenalty (er : ℚ) (followers contentCount30d : ℤ) : ℤ :=
  let p : ℤ := 0
  let p := if followers > 20000 ∧ er < 8/1000 then p + 10 else p
  let p := if followers > 50000 ∧ contentCount30d < 4 then p + 10 else p
  let p := if er > 12/100 ∧ contentCount30d < 6 then p + 10 else p
  clamp p 0 30

/-- `computeTotalScore` (scoring.js lines 42–49). `reachScore : Option ℤ`
models the JS value that may be `null` (`typeof reachScore === 'number'`
is the `some` case). -/
def computeTotalScore (erScore : ℤ) (reachScore : Option ℤ)
    (consistencyScore nicheScore fraudPenalty : ℤ) (reachAvailable : Bool) : ℤ :=
  match reachAvailable, reachScore with
  | true, some r =>
      clamp (jsRound ((30/100) * (erScore : ℚ) + (25/100) * (r : ℚ)
        + (20/100) * (consistencyScore : ℚ) + (15/100) * (nicheScore : ℚ)
        - (10/100) * (fraudPenalty : ℚ))) 0 100
  | _, _ =>
      clamp (jsRound ((40/100) * (erScore : ℚ) + (25/100) * (consistencyScore : ℚ)
        + (20/100) * (nicheScore : ℚ) - (15/100) * (fraudPenalty : ℚ))) 0 100

/-- `grade` (scoring.js lines 51–55). -/
def grade (score : ℤ) : String :=
  if score ≥ 80 then "A"
  else if score ≥ 60 then "B"
  else "C"

/-! ### Niche classifier (scoring.js lines 57–95) -/

/-- Contiguous-substring occurrence on character lists. -/
def subOccurs (pat : List Char) : List Char → Bool
  | [] => pat.isEmpty
  | c :: rest => pat.isPrefixOf (c :: rest) || subOccurs pat rest

/-- JS `text.includes(w)`: `w` occurs as a contiguous substring of `text`. -/
def jsIncludes (text w : String) : Bool := subOccurs w.data text.data

/-- Simple lowercase mapping for one character, covering ASCII `A`–`Z` and
the Latin-1 Supplement uppercase letters `À`–`Þ` (U+00C0–U+00DE, excluding
the multiplication sign U+00D7), which all map by +32 — together these are
the alphabets of the PT/ES dictionaries and of the markets this system
targets. Code points outside these ranges are left unchanged; the
classifier theorems below therefore quantify over the scanned text itself
rather than relying on this case map for the full Unicode range. -/
def jsCharToLower (c : Char) : Char :=
  if 'A' ≤ c ∧ c ≤ 'Z' then Char.ofNat (c.toNat + 32)
  else if 0xC0 ≤ c.toNat ∧ c.toNat ≤ 0xDE ∧ c.toNat ≠ 0xD7 then Char.ofNat (c.toNat + 32)
  else c

/-- JS `String.prototype.toLowerCase`, modelled character-wise via
`jsCharToLower`. -/
def jsToLower (s : String) : String := ⟨s.data.map jsCharToLower⟩

/-- The keyword dictionaries `DICTS` (scoring.js lines 58–66), as an ordered
association list preserving the JS object key enumeration order. -/
def DICTS : List (String × List String) := [
  ("food", ["restaurante","sushi","comida","delivery","menú","menu","tapas","reseña","cocina","chef","hamburg","ramen","poke","izakaya"]),
  ("beauty", ["maquillaje","skincare","uñas","estética","pelo","cabello","dermo","beauty","cosmética","cosmetica"]),
  ("fitness", ["gym","treino","entreno","proteína","proteina","dieta","fitness","perder peso","pérdida","musculación","musculacion"]),
  ("tech", ["apps","gadget","review","iphone","android","software","saas","tecnología","tecnologia","ai","ia"]),
  ("family", ["mamá","mama","hijos","maternidad","familia","família","crianza","bebé","bebe","paternidad"]),
  ("travel", ["viaje","viagem","travel","hotel","ruta","playa","aeropuerto","turismo","trip"]),
  ("fashion", ["moda","outfit","look","streetwear","ropa","zapatos","fashion"])]

/-- All dictionary keywords of all niches, in enumeration order. -/
def allKeywords : List String := DICTS.foldr (fun kd acc => kd.2 ++ acc) []

/-- The keywords of `words` found in `text` (each counted once), in
dictionary order — the matches accumulated by the classifier's inner loop. -/
def matchedWords (text : String) (words : List String) : List String :=
  words.filter (jsIncludes text)

/-- Insert into a list sorted by hit count descending, before the first
entry whose count is ≤ the new one. `sortDesc` inserts earlier elements
into the sorted list of later ones, so placing the inserted element before
equal counts preserves the original order among equal counts. -/
def insertDesc (x : String × ℕ) : List (String × ℕ) → List (String × ℕ)
  | [] => [x]
  | y :: ys => if y.2 ≤ x.2 then x :: y :: ys else y :: insertDesc x ys

/-- Stable sort by hit count descending. JS `Array.prototype.sort` with the
comparator `(a,b) => b[1]-a[1]` is a stable descending sort (ES2019+); for
a total preorder on the keys the stable sorted output is unique, so this
stable insertion sort computes the same list. -/
def sortDesc : List (String × ℕ) → List (String × ℕ)
  | [] => []
  | x :: xs => insertDesc x (sortDesc xs)

/-- JS `Number(q.toFixed(2))` for the nonnegative confidences produced here:
round to 2 decimal places, ties toward the larger value. -/
def jsToFixed2 (q : ℚ) : ℚ := (jsRound (q * 100) : ℚ) / 100

/-- The record returned by `classifyNiche`. -/
structure NicheResult where
  primary_niche : String
  secondary_niches : List String
  confidence : ℚ
  evidence_keywords : List String
deriving DecidableEq, Repr

/-- The `scores` table of `classifyNiche`: each niche tag paired with its
keyword hit count in `text` (each keyword counted once). -/
def nicheScores (text : String) : List (String × ℕ) :=
  DICTS.map fun kd => (kd.1, (matchedWords text kd.2).length)

/-- The body of `classifyNiche` after the concatenate-and-lowercase step
(scoring.js lines 70–94), as a function of the scanned `text` and of the
`declared` string read by the zero-hit ternary. `scored` pairs each niche
tag with its keyword hit count; `ranked` is the stable descending sort;
the JS `|| 1` guard on the total-hit denominator is the
`if ... = 0 then 1` below. The JS code caps evidence at 8 while
accumulating and slices to 8 again at the end; both are the single
`take 8` here. `DICTS` is non-empty, so the `headD`/`getD` defaults are
never read for the head; the JS zero-hit expression
`declared ? "general" : "general"` is the two-branch conditional kept
verbatim below (both branches are `"general"`). -/
def classifyNicheScan (declared text : String) : NicheResult :=
  let scored := nicheScores text
  let ranked := sortDesc scored
  let primary := (ranked.headD ("", 0)).1
  let pscore := (ranked.headD ("", 0)).2
  let secondary := (ranked.getD 1 ("", 0)).1
  let sscore := (ranked.getD 1 ("", 0)).2
  let hitSum : ℕ := scored.foldl (fun s kv => s + kv.2) 0
  let totalHits : ℕ := if hitSum = 0 then 1 else hitSum
  let confidence : ℚ := (pscore : ℚ) / (totalHits : ℚ)
  { primary_niche :=
      if pscore = 0 then (if declared ≠ "" then "general" else "general") else primary
    secondary_niches := if pscore = 0 then [] else if 0 < sscore then [secondary] else []
    confidence := jsToFixed2 confidence
    evidence_keywords := (matchedWords text ((DICTS.lookup primary).getD [])).take 8 }

/-- `classifyNiche` (scoring.js lines 68–95): concatenate bio and declared
category, lowercase, then scan. -/
def classifyNiche (bio declared : String) : NicheResult :=
  classifyNicheScan declared (jsToLower (bio ++ " " ++ declared))

/-! ### Brand target mapping (scoring.js lines 97–139) -/

/-- The pair of brand-category lists returned by `buildBrandTargets`; the
source field `local` is a Lean keyword, hence the escaped name. -/
structure BrandTargets where
  «local» : List String
  ecommerce : List String
deriving DecidableEq, Repr

/-- The `general` entry of `BRAND_MAP` (scoring.js lines 127–130). -/
def generalTargets : BrandTargets :=
  { «local» := ["serviços locais","eventos","restaurantes"],
    ecommerce := ["e-commerce geral","apps","produtos de alta rotatividade"] }

/-- `BRAND_MAP` (scoring.js lines 98–131) as an ordered association list. -/
def BRAND_MAP : List (String × BrandTargets) := [
  ("food", { «local» := ["restaurantes locais","dark kitchens","cafés","eventos gastronômicos","apps de reservas"],
             ecommerce := ["utensílios de cozinha","assinatura gourmet","boxes de comida"] }),
  ("beauty", { «local» := ["clínicas estéticas","salões","dermoclínicas"],
               ecommerce := ["skincare DTC","makeup","haircare"] }),
  ("fitness", { «local» := ["academias","studios de treino","personal training"],
                ecommerce := ["roupa esportiva","acessórios fitness"] }),
  ("tech", { «local» := ["assistência técnica","lojas de acessórios","coworkings"],
             ecommerce := ["gadgets","apps/SaaS","fintechs"] }),
  ("family", { «local» := ["escolas/atividades","lojas infantis","serviços familiares"],
               ecommerce := ["produtos baby","brinquedos","assinaturas educativas"] }),
  ("travel", { «local» := ["agências locais","tours","guias"],
               ecommerce := ["malas","acessórios viagem","seguros"] }),
  ("fashion", { «local» := ["boutiques","barbearias/estilo","fotografia"],
                ecommerce := ["streetwear","acessórios","calçados"] }),
  ("general", generalTargets)]

/-- The JS property names every plain object literal inherits from
`Object.prototype`: for these keys `BRAND_MAP[niche]` yields the inherited
member (a function, or the `__proto__` accessor's object) instead of
`undefined`. -/
def OBJECT_PROTOTYPE_KEYS : List String :=
  ["constructor","hasOwnProperty","isPrototypeOf","propertyIsEnumerable",
   "toLocaleString","toString","valueOf","__proto__",
   "__defineGetter__","__defineSetter__","__lookupGetter__","__lookupSetter__"]

/-- The possible results of the JS property access `BRAND_MAP[niche]`:
an own entry of the map, a truthy `Object.prototype` member inherited
through the prototype chain, or `undefined`. -/
inductive JsValue where
  | targets (t : BrandTargets)
  | protoMember (name : String)
  | undef
deriving DecidableEq, Repr

/-- JS `BRAND_MAP[niche]`: an own property wins, otherwise the prototype
chain is consulted, otherwise `undefined`. -/
def brandMapGet (niche : String) : JsValue :=
  match BRAND_MAP.lookup niche with
  | some t => JsValue.targets t
  | none =>
      if niche ∈ OBJECT_PROTOTYPE_KEYS then JsValue.protoMember niche else JsValue.undef

/-- The object returned by `buildBrandTargets`; `none` models the JS
`undefined` read from a member that has no `local`/`ecommerce` property. -/
structure BrandTargetLists where
  «local» : Option (List String)
  ecommerce : Option (List String)
deriving DecidableEq, Repr

/-- `buildBrandTargets` (scoring.js lines 133–139):
`const map = BRAND_MAP[niche] || BRAND_MAP.general` then
`{ local: map.local, ecommerce: map.ecommerce }`. An inherited
`Object.prototype` member is truthy, so the `||` fallback does not fire
for it and both property reads on it give `undefined`. -/
def buildBrandTargets (niche : String) : BrandTargetLists :=
  match brandMapGet niche with
  | JsValue.targets t => { «local» := some t.«local», ecommerce := some t.ecommerce }
  | JsValue.protoMember _ => { «local» := none, ecommerce := none }
  | JsValue.undef =>
      { «local» := some generalTargets.«local», ecommerce := some generalTargets.ecommerce }

/-! ### Qualification pipeline (`runQualification`, server entry file lines 168–222) -/

/-- The values computed by the score block of `runQualification` (lines
191–204). The raw signals are the fixed placeholders of the source
(`followers=1000`, `likes=50`, `comments=5`, `contentCount30d=8`,
reach unavailable); the classifier confidence is the only varying input. -/
structure ScoreOutcome where
  total : ℤ
  g : String
  erScore : ℤ
  reachScore : ℤ
  consistencyScore : ℤ
  nicheScore : ℤ
  fraudPenalty : ℤ
deriving DecidableEq, Repr

/-- The score block of `runQualification`: `er = (50 + 5) / 1000`,
consistency input `contentCount30d / 4 = 8 / 4`, reach unavailable
(`computeReachScore` returns the JS `null`, coalesced to `0` by `?? 0`). -/
def pipelineScore (confidence : ℚ) : ScoreOutcome :=
  let er : ℚ := (50 + 5) / 1000
  let erScore := computeErScore er
  let consistencyScore := computeConsistencyScore (8 / 4)
  let nicheScore := computeNicheScore confidence
  let reachScore := (computeReachScore false 0).getD 0
  let fraudPenalty := computeFraudPenalty er 1000 8
  let total := computeTotalScore erScore (some reachScore) consistencyScore nicheScore
    fraudPenalty false
  { total := total, g := grade total, erScore := erScore, reachScore := reachScore,
    consistencyScore := consistencyScore, nicheScore := nicheScore,
    fraudPenalty := fraudPenalty }

/-- A row of the `creators` table (the columns the pipeline touches);
`declared_category` is a nullable column. -/
structure CreatorRow where
  id : String
  declared_category : Option String
  status : String
deriving DecidableEq, Repr

/-- A row of `creator_scores` as inserted by the pipeline. -/
structure ScoreRow where
  creator_id : String
  outcome : ScoreOutcome
deriving DecidableEq, Repr

/-- A row of `brand_targets`; the stored list is the one read off the
brand-target object (`none` models the JS `undefined`, which for the
classifier-producible tags never occurs). -/
structure BrandTargetRow where
  creator_id : String
  target_type : String
  segment : String
  suggested_brands : Option (List String)
deriving DecidableEq, Repr

/-- The persistent store as the pipeline sees it: the mutable `creators`
rows plus the append-only tables (rows kept in insertion = timestamp
order, most recent last). `auditLog` keeps the `action` column of
`audit_log` rows. -/
structure DB where
  creators : List CreatorRow
  snapshots : List String
  metricsDaily : List String
  classifications : List (String × NicheResult)
  scores : List ScoreRow
  brandTargets : List BrandTargetRow
  auditLog : List String
deriving DecidableEq, Repr

/-- Which of the pipeline's eight SQL statements throw on this run — the
seven statements up to the status update plus the trailing `logAudit`
insert into `audit_log` (source line 221). better-sqlite3 runs each
prepared statement as its own auto-committed write and `runQualification`
opens no enclosing transaction, so when a statement throws, every earlier
statement's write persists. -/
structure FailureOracle where
  failSnapshot : Bool
  failMetrics : Bool
  failClassification : Bool
  failScore : Bool
  failBrandLocal : Bool
  failBrandEcom : Bool
  failStatus : Bool
  failAudit : Bool
deriving DecidableEq, Repr

/-- `runQualification` (lines 168–222): the snapshot and dummy-metrics
inserts, the classification insert (bio is not available, the creator's
`declared_category` is used), the score insert, the two brand-target
inserts, the `status='qualified'` update, and finally the `logAudit`
insert of the `QUALIFIED` action. Returns the store after the run and
whether the run completed; a thrown statement aborts the run keeping the
writes already made — in particular a throw in the trailing audit insert
aborts the invocation with the status already updated. -/
def runQualification (fail : FailureOracle) (creator_id account_id : String)
    (db : DB) : DB × Bool :=
  let creator := db.creators.find? fun c => c.id == creator_id
  let declared := (creator.bind (·.declared_category)).getD ""
  if fail.failSnapshot then (db, false) else
  let db := { db with snapshots := db.snapshots ++ [account_id] }
  if fail.failMetrics then (db, false) else
  let db := { db with metricsDaily := db.metricsDaily ++ [account_id] }
  let niche := classifyNiche "" declared
  if fail.failClassification then (db, false) else
  let db := { db with classifications := db.classifications ++ [(creator_id, niche)] }
  let s := pipelineScore niche.confidence
  if fail.failScore then (db, false) else
  let db := { db with scores := db.scores ++ [{ creator_id := creator_id, outcome := s }] }
  let targets := buildBrandTargets niche.primary_niche
  if fail.failBrandLocal then (db, false) else
  let db := { db with brandTargets := db.brandTargets
    ++ [{ creator_id := creator_id, target_type := "local",
          segment := niche.primary_niche, suggested_brands := targets.«local» }] }
  if fail.failBrandEcom then (db, false) else
  let db := { db with brandTargets := db.brandTargets
    ++ [{ creator_id := creator_id, target_type := "ecommerce",
          segment := niche.primary_niche, suggested_brands := targets.ecommerce }] }
  if fail.failStatus then (db, false) else
  let db := { db with creators := db.creators.map fun c =>
    if c.id == creator_id then { c with status := "qualified" } else c }
  if fail.failAudit then (db, false) else
  let db := { db with auditLog := db.auditLog ++ ["QUALIFIED"] }
  (db, true)

/-- The creator's "current" classification, as the overview endpoint reads
it (`ORDER BY computed_at DESC LIMIT 1`): the most recently appended row. -/
def latestClassification (db : DB) (creator_id : String) : Option NicheResult :=
  ((db.classifications.filter fun r => r.1 == creator_id).getLast?).map (·.2)

/-- A run on which only the `creator_scores` insert throws. -/
def scoreFailOracle : FailureOracle :=
  { failSnapshot := false, failMetrics := false, failClassification := false,
    failScore := true, failBrandLocal := false, failBrandEcom := false,
    failStatus := false, failAudit := false }

/-- A run on which only the trailing `audit_log` insert throws. -/
def auditFailOracle : FailureOracle :=
  { failSnapshot := false, failMetrics := false, failClassification := false,
    failScore := false, failBrandLocal := false, failBrandEcom := false,
    failStatus := false, failAudit := true }

/-- A store holding one freshly connected creator with no prior pipeline
rows. -/
def connectedDb : DB :=
  { creators := [{ id := "c1", declared_category := none, status := "connected" }],
    snapshots := [], metricsDaily := [], classifications := [], scores := [],
    brandTargets := [], auditLog := [] }

/-! ### Helper lemmas -/

/-- With `reachAvailable = false` the source takes the reweighted branch
regardless of `reachScore`. -/
theorem computeTotalScore_noReach (e c n f : ℤ) (rs : Option ℤ) :
    computeTotalScore e rs c n f false
      = clamp (jsRound ((40/100) * (e : ℚ) + (25/100) * (c : ℚ)
        + (20/100) * (n : ℚ) - (15/100) * (f : ℚ))) 0 100 := by
  cases rs <;> rfl

/-- With `reachAvailable = true` and a numeric reach score the source takes
the reach-weighted branch. -/
theorem computeTotalScore_reach (e r c n f : ℤ) :
    computeTotalScore e (some r) c n f true
      = clamp (jsRound ((30/100) * (e : ℚ) + (25/100) * (r : ℚ)
        + (20/100) * (c : ℚ) + (15/100) * (n : ℚ)
        - (10/100) * (f : ℚ))) 0 100 := rfl

/-- `subOccurs` decides the standard contiguous-sublist relation. -/
theorem subOccurs_iff (pat l : List Char) : subOccurs pat l = true ↔ pat <:+: l := by
  induction l with
  | nil => simp [subOccurs, List.isEmpty_iff]
  | cons c rest ih =>
      simp [subOccurs, List.infix_cons_iff, ih, List.isPrefixOf_iff_prefix]

/-- A value clamped to `[0, 100]` lies in `[0, 100]`. -/
theorem clamp_bounds (n : ℤ) : 0 ≤ clamp n 0 100 ∧ clamp n 0 100 ≤ 100 := by
  unfold clamp; omega

/-- A keyword list none of whose members occurs in `text` matches nothing. -/
theorem matchedWords_nil (text : String) (ws : List String)
    (h : ∀ w ∈ ws, jsIncludes text w = false) : matchedWords text ws = [] := by
  unfold matchedWords
  rw [List.filter_eq_nil_iff]
  intro w hw
  simp [h w hw]

/-- A failure of the trailing audit-log insert (source line 221) aborts
the invocation with the status already advanced to `qualified`: the case
that bounds what the pipeline's failure semantics can guarantee about the
lifecycle status. -/
theorem audit_failure_leaves_qualified :
    (runQualification auditFailOracle "c1" "a1" connectedDb).2 = false
      ∧ (runQualification auditFailOracle "c1" "a1" connectedDb).1.creators
          = [{ id := "c1", declared_category := none, status := "qualified" }] :=
  ⟨rfl, rfl⟩

/-! ### Claims -/

/-- Claim C1, counterexample: a run on which only the score-persistence
step fails aborts (`false` flag), yet the classification row appended by
the earlier step has become visible as the creator's current
classification, so it is not true that no partial writes become visible
as current. The creator's status, however, is untouched. -/
theorem C1_partial_write_counterexample :
    (runQualification scoreFailOracle "c1" "a1" connectedDb).2 = false
      ∧ latestClassification connectedDb "c1" = none
      ∧ (latestClassification
          (runQualification scoreFailOracle "c1" "a1" connectedDb).1 "c1").isSome = true
      ∧ (runQualification scoreFailOracle "c1" "a1" connectedDb).1.creators
          = connectedDb.creators :=
  ⟨rfl, rfl, rfl, rfl⟩

/-- Claim C1, amended: whenever any of the classification, score, or
brand-target persistence steps fails, the invocation aborts and the
creators table — in particular the creator's lifecycle status — is
unchanged (those statements all precede the `status='qualified'` update),
although rows appended by steps that completed before the failure remain
visible as current. (A failure of the trailing audit-log insert, by
contrast, aborts the invocation with the status already advanced; see
`audit_failure_leaves_qualified`.) -/
theorem C1_status_unchanged_on_failure (fail : FailureOracle)
    (creator_id account_id : String) (db : DB)
    (h : fail.failClassification = true ∨ fail.failScore = true
        ∨ fail.failBrandLocal = true ∨ fail.failBrandEcom = true) :
    (runQualification fail creator_id account_id db).2 = false
      ∧ (runQualification fail creator_id account_id db).1.creators = db.creators := by
  rcases fail with ⟨f1,f2,f3,f4,f5,f6,f7,f8⟩
  cases f1 <;> cases f2 <;> cases f3 <;> cases f4 <;> cases f5 <;> cases f6 <;> cases f7 <;>
    cases f8 <;> simp_all [runQualification]

/-- Claim C1, witness for the amended theorem at the score-failing run. -/
theorem C1_status_unchanged_witness :
    (runQualification scoreFailOracle "c1" "a1" connectedDb).2 = false
      ∧ (runQualification scoreFailOracle "c1" "a1" connectedDb).1.creators
          = connectedDb.creators :=
  C1_status_unchanged_on_failure scoreFailOracle "c1" "a1" connectedDb
    (Or.inr (Or.inl rfl))

/-- Claim C2: for followers=1000, likes=50, comments=5, contentCount30d=8,
confidence=1.0 and reach unavailable, the engagement rate is 0.055 giving
erScore=70, consistencyScore=70, nicheScore=100, fraudPenalty=0, and the
total is round-half-up of 65.5 = 66, grade "B". -/
theorem C2_end_to_end :
    ((50 + 5 : ℚ) / 1000 = 55/1000)
      ∧ computeErScore (55/1000) = 70
      ∧ computeConsistencyScore (8/4) = 70
      ∧ computeNicheScore 1 = 100
      ∧ computeFraudPenalty (55/1000) 1000 8 = 0
      ∧ computeReachScore false 0 = none
      ∧ (40/100 : ℚ) * 70 + (25/100) * 70 + (20/100) * 100 - (15/100) * 0 = 655/10
      ∧ jsRound (655/10) = 66
      ∧ computeTotalScore 70 (some 0) 70 100 0 false = 66
      ∧ grade 66 = "B" := by
  refine ⟨by norm_num, by norm_num [computeErScore], by norm_num [computeConsistencyScore],
    by norm_num [computeNicheScore], by norm_num [computeFraudPenalty, clamp],
    rfl, by norm_num, by norm_num [jsRound], ?_, by decide⟩
  rw [computeTotalScore_noReach]
  norm_num [jsRound, clamp]

/-- Claim C3: for every scanned input text (the concatenated, lowercased
bio + declared category the classifier matches keywords against) in which
no dictionary keyword of any niche occurs as a substring, the classifier
returns primary niche "general" — regardless of the declared-category
value, over which the statement quantifies separately — an empty
secondary-niche list and confidence 0, the zero-hit denominator being
guarded to 1. -/
theorem C3_no_hits_general (declared text : String)
    (h : ∀ w ∈ allKeywords, jsIncludes text w = false) :
    classifyNicheScan declared text =
      { primary_niche := "general", secondary_niches := [], confidence := 0,
        evidence_keywords := [] } := by
  have hsub : ∀ kd ∈ DICTS, ∀ w ∈ kd.2, w ∈ allKeywords := by decide
  have hm : ∀ kd ∈ DICTS, matchedWords text kd.2 = [] :=
    fun kd hkd => matchedWords_nil _ _ (fun w hw => h w (hsub kd hkd w hw))
  have hscores : nicheScores text =
      [("food",0),("beauty",0),("fitness",0),("tech",0),("family",0),("travel",0),
        ("fashion",0)] := by
    unfold nicheScores
    rw [List.map_congr_left (fun kd hkd => by rw [hm kd hkd])]
    decide
  have hfood : matchedWords text ((DICTS.lookup "food").getD []) = [] := by
    refine hm ("food", (DICTS.lookup "food").getD []) ?_
    decide
  simp only [classifyNicheScan, hscores]
  norm_num [sortDesc, insertDesc, jsToFixed2, jsRound, hfood]

/-- Claim C3, witness at empty bio and empty declared category: on the
text `classifyNiche` scans for that input no keyword occurs, and the full
function returns the general/zero-confidence record. -/
theorem C3_no_hits_general_witness :
    (∀ w ∈ allKeywords, jsIncludes (jsToLower ("" ++ " " ++ "")) w = false)
      ∧ classifyNiche "" "" =
        { primary_niche := "general", secondary_niches := [], confidence := 0,
          evidence_keywords := [] } :=
  ⟨by decide, C3_no_hits_general "" (jsToLower ("" ++ " " ++ "")) (by decide)⟩

/-- Claim C4: for valid sub-scores (0–100, reach possibly unavailable) and
fraud penalty 0–30, `computeTotalScore` is the reach-weighted formula when
reach is available, the reweighted formula when not, each rounded and
clamped, and the result is an integer in [0, 100] in both cases. -/
theorem C4_total_score_formulas_and_bounds (e c n f r : ℤ) (rs : Option ℤ)
    (_he : 0 ≤ e ∧ e ≤ 100) (_hc : 0 ≤ c ∧ c ≤ 100) (_hn : 0 ≤ n ∧ n ≤ 100)
    (_hr : 0 ≤ r ∧ r ≤ 100) (_hf : 0 ≤ f ∧ f ≤ 30) :
    computeTotalScore e (some r) c n f true
        = clamp (jsRound ((30/100) * (e : ℚ) + (25/100) * (r : ℚ) + (20/100) * (c : ℚ)
            + (15/100) * (n : ℚ) - (10/100) * (f : ℚ))) 0 100
      ∧ computeTotalScore e rs c n f false
        = clamp (jsRound ((40/100) * (e : ℚ) + (25/100) * (c : ℚ) + (20/100) * (n : ℚ)
            - (15/100) * (f : ℚ))) 0 100
      ∧ 0 ≤ computeTotalScore e (some r) c n f true
      ∧ computeTotalScore e (some r) c n f true ≤ 100
      ∧ 0 ≤ computeTotalScore e rs c n f false
      ∧ computeTotalScore e rs c n f false ≤ 100 := by
  refine ⟨computeTotalScore_reach e r c n f, computeTotalScore_noReach e c n f rs,
    ?_, ?_, ?_, ?_⟩
  · rw [computeTotalScore_reach]; exact (clamp_bounds _).1
  · rw [computeTotalScore_reach]; exact (clamp_bounds _).2
  · rw [computeTotalScore_noReach]; exact (clamp_bounds _).1
  · rw [computeTotalScore_noReach]; exact (clamp_bounds _).2

/-- Claim C4, witness at erScore=70, reachScore=50, consistency=70,
niche=100, fraudPenalty=10. -/
theorem C4_total_score_witness :
    (0 : ℤ) ≤ computeTotalScore 70 (some 50) 70 100 10 true :=
  (C4_total_score_formulas_and_bounds 70 70 100 10 50 (some 50) (by norm_num)
    (by norm_num) (by norm_num) (by norm_num) (by norm_num)).2.2.1

/-- Claim C5: `computeFraudPenalty` is the sum of exactly the triggered +10
rule increments and always lies in [0, 30]. -/
theorem C5_fraud_penalty_sum (er : ℚ) (followers c30 : ℤ) :
    computeFraudPenalty er followers c30
        = (if followers > 20000 ∧ er < 8/1000 then 10 else 0)
          + (if followers > 50000 ∧ c30 < 4 then 10 else 0)
          + (if er > 12/100 ∧ c30 < 6 then 10 else 0)
      ∧ 0 ≤ computeFraudPenalty er followers c30
      ∧ computeFraudPenalty er followers c30 ≤ 30 := by
  unfold computeFraudPenalty clamp
  split_ifs <;> norm_num

/-- Claim C6: `grade` maps t ≥ 80 to "A", 60 ≤ t < 80 to "B" and t < 60 to
"C"; in particular grade(79)="B", grade(80)="A", grade(59)="C",
grade(60)="B". -/
theorem C6_grade_boundaries (t : ℤ) :
    grade 79 = "B" ∧ grade 80 = "A" ∧ grade 59 = "C" ∧ grade 60 = "B"
      ∧ grade t = (if t ≥ 80 then "A" else if t ≥ 60 then "B" else "C") :=
  ⟨by decide, by decide, by decide, by decide, rfl⟩

/-- Claim C7: `computeErScore` is monotonically non-decreasing in the
engagement rate and its value is always one of 20, 45, 70, 100. -/
theorem C7_er_score_monotone_range (er1 er2 : ℚ) (h : er1 ≤ er2) :
    computeErScore er1 ≤ computeErScore er2
      ∧ (computeErScore er1 = 20 ∨ computeErScore er1 = 45
          ∨ computeErScore er1 = 70 ∨ computeErScore er1 = 100)
      ∧ (computeErScore er2 = 20 ∨ computeErScore er2 = 45
          ∨ computeErScore er2 = 70 ∨ computeErScore er2 = 100) := by
  unfold computeErScore
  split_ifs <;> norm_num <;> linarith

/-- Claim C7, witness at er1 = 0 ≤ er2 = 1. -/
theorem C7_er_score_witness :
    computeErScore 0 ≤ computeErScore 1
      ∧ (computeErScore 0 = 20 ∨ computeErScore 0 = 45
          ∨ computeErScore 0 = 70 ∨ computeErScore 0 = 100)
      ∧ (computeErScore 1 = 20 ∨ computeErScore 1 = 45
          ∨ computeErScore 1 = 70 ∨ computeErScore 1 = 100) :=
  C7_er_score_monotone_range 0 1 (by norm_num)

/-- Claim C8, counterexample: for the unmapped tag `"constructor"` the JS
property access hits `Object.prototype`, the truthy inherited member
suppresses the `|| BRAND_MAP.general` fallback, and both returned lists
are `undefined` — neither non-empty lists nor the general entry, so the
claimed universal fallback is false of the program. -/
theorem C8_prototype_counterexample :
    (buildBrandTargets "constructor").«local» = none
      ∧ (buildBrandTargets "constructor").ecommerce = none
      ∧ buildBrandTargets "constructor"
          ≠ { «local» := some generalTargets.«local»,
              ecommerce := some generalTargets.ecommerce } := by
  decide

/-- Claim C8, amended: every niche tag producible by the classifier (the
seven dictionary tags and "general") resolves to a pair of non-empty
local and e-commerce lists, and every unknown tag that is not an
`Object.prototype` property name falls back to the "general" entry;
prototype property names such as "constructor" instead yield `undefined`
lists. -/
theorem C8_brand_targets_total (s : String) :
    (s ∈ ["food","beauty","fitness","tech","family","travel","fashion","general"] →
        ∃ l e, buildBrandTargets s = { «local» := some l, ecommerce := some e }
          ∧ l ≠ [] ∧ e ≠ [])
      ∧ (s ∉ ["food","beauty","fitness","tech","family","travel","fashion","general"] →
          s ∉ OBJECT_PROTOTYPE_KEYS →
          buildBrandTargets s = { «local» := some generalTargets.«local»,
                                  ecommerce := some generalTargets.ecommerce }) := by
  constructor
  · intro hs
    simp only [List.mem_cons, List.not_mem_nil, or_false] at hs
    rcases hs with h|h|h|h|h|h|h|h <;> subst h <;> exact ⟨_, _, rfl, by decide, by decide⟩
  · intro hs hp
    have hlk : BRAND_MAP.lookup s = none := by
      simp only [List.mem_cons, List.not_mem_nil, or_false, not_or] at hs
      obtain ⟨h1,h2,h3,h4,h5,h6,h7,h8⟩ := hs
      simp [BRAND_MAP, List.lookup, beq_eq_false_iff_ne.mpr h1, beq_eq_false_iff_ne.mpr h2,
        beq_eq_false_iff_ne.mpr h3, beq_eq_false_iff_ne.mpr h4, beq_eq_false_iff_ne.mpr h5,
        beq_eq_false_iff_ne.mpr h6, beq_eq_false_iff_ne.mpr h7, beq_eq_false_iff_ne.mpr h8]
    simp [buildBrandTargets, brandMapGet, hlk, hp]

/-- Claim C8, witness for the amended theorem at the unmapped,
non-prototype tag "pets". -/
theorem C8_brand_targets_witness :
    buildBrandTargets "pets" = { «local» := some generalTargets.«local»,
                                 ecommerce := some generalTargets.ecommerce } :=
  (C8_brand_targets_total "pets").2 (by decide) (by decide)

/-- Claim C9: the first and third fraud rules require er < 0.008 and
er > 0.12 respectively, so they never fire together and the penalty never
exceeds 20. -/
theorem C9_fraud_penalty_max_20 (er : ℚ) (followers c30 : ℤ) :
    computeFraudPenalty er followers c30 ≤ 20
      ∧ ¬((followers > 20000 ∧ er < 8/1000) ∧ (er > 12/100 ∧ c30 < 6)) := by
  constructor
  · unfold computeFraudPenalty clamp
    split_ifs with a b c <;> norm_num
    linarith [a.2, c.1]
  · rintro ⟨⟨-, h1⟩, h3, -⟩
    linarith

/-- Claim C10: with the pipeline's placeholder signals the stored erScore
is 70, consistencyScore 70, fraudPenalty 0, reach is unavailable (stored
reach score 0), and for every classifier confidence the total is at most
66 — so this pipeline never produces grade "A". -/
theorem C10_pipeline_placeholder_cap (c : ℚ) :
    (pipelineScore c).erScore = 70
      ∧ (pipelineScore c).consistencyScore = 70
      ∧ (pipelineScore c).fraudPenalty = 0
      ∧ (pipelineScore c).reachScore = 0
      ∧ computeReachScore false 0 = none
      ∧ (pipelineScore c).total ≤ 66
      ∧ (pipelineScore c).g ≠ "A" := by
  have her : computeErScore ((50 + 5 : ℚ) / 1000) = 70 := by norm_num [computeErScore]
  have hcon : computeConsistencyScore ((8 : ℚ) / 4) = 70 := by
    norm_num [computeConsistencyScore]
  have hfr : computeFraudPenalty ((50 + 5 : ℚ) / 1000) 1000 8 = 0 := by
    norm_num [computeFraudPenalty, clamp]
  have hni : computeNicheScore c = 100 ∨ computeNicheScore c = 75
      ∨ computeNicheScore c = 55 ∨ computeNicheScore c = 35 := by
    unfold computeNicheScore; split_ifs <;> simp
  simp only [pipelineScore, her, hcon, hfr, computeReachScore, Option.getD]
  rcases hni with h|h|h|h <;>
    rw [h, computeTotalScore_noReach] <;>
    norm_num [jsRound, clamp, grade] <;>
    decide

end Influence
